import Mathlib

/-!
Verification of the Crossplane Composition validation core.

This file gives a shallow embedding, in Lean 4, of the schema type
vocabulary, the field-path resolver, the transform type-flow validator,
the patch validator and the logical validation chain of the repository,
and proves properties of the embedded definitions.

Embedded sources:
* `pkg/validation/schema/schema.go` — schema type vocabulary.
* `pkg/validation/apiextensions/v1/composition/patches.go` — field-path
  resolution, patch validation, transform chain IO-type validation.
* `pkg/validation/apiextensions/v1/composition/schema.go` — the synthetic
  metadata schema.
* `internal/controller/apiextensions/composition/validation/logical.go`
  — the logical validation chain.
* `internal/controller/apiextensions/composition/validation/composition_validate.go`
  — the validation-mode reader.

Go maps are embedded as association lists (first-match lookup; maps have
unique keys), Go `*T` pointers as `Option`, fallible functions returning
`(T, error)` as `Except String T`, and functions returning a nilable
`*field.Error` as `Option FieldError`.
-/

namespace Crossplane

namespace Schema

/-! ## Schema type vocabulary, from `pkg/validation/schema/schema.go`.

`KnownJSONType` is a Go string type; we embed it as `String` together
with the named constants. -/

/-- The JSON type for arrays. -/
def ArrayKnownJSONType : String := "array"

/-- The JSON type for booleans. -/
def BooleanKnownJSONType : String := "boolean"

/-- The JSON type for integers. -/
def IntegerKnownJSONType : String := "integer"

/-- The JSON type for null. -/
def NullKnownJSONType : String := "null"

/-- The JSON type for numbers. -/
def NumberKnownJSONType : String := "number"

/-- The JSON type for objects. -/
def ObjectKnownJSONType : String := "object"

/-- The JSON type for strings. -/
def StringKnownJSONType : String := "string"

/-- `KnownJSONType.IsEquivalent`: true if the two supplied types are
equal, or if the first type is an integer and the second is a number. -/
def IsEquivalent (t t2 : String) : Bool :=
  t == t2 || (t == IntegerKnownJSONType && t2 == NumberKnownJSONType)

/-- `IsKnownJSONType`: true if the supplied string is a known JSON type. -/
def IsKnownJSONType (t : String) : Bool :=
  t == ArrayKnownJSONType || t == BooleanKnownJSONType || t == IntegerKnownJSONType ||
  t == NullKnownJSONType || t == NumberKnownJSONType || t == ObjectKnownJSONType ||
  t == StringKnownJSONType

end Schema

/-! ## JSON schema nodes

Embedding of `apiextensions.JSONSchemaProps`, restricted to the fields the
validation core reads: `Type`, `Properties`, `Required`,
`AdditionalProperties` (a `*JSONSchemaPropsOrBool`, embedded as
`Option (Allows × Schema)`), `Items` (a `*JSONSchemaPropsOrArray`,
embedded as `Option (Schema × JSONSchemas)`) and
`XPreserveUnknownFields` (a `*bool`). -/

inductive JSONSchemaProps : Type where
  | mk
      (type : String)
      (properties : List (String × JSONSchemaProps))
      (required : List String)
      (additionalProperties : Option (Bool × Option JSONSchemaProps))
      (items : Option (Option JSONSchemaProps × List JSONSchemaProps))
      (xPreserveUnknownFields : Option Bool)
      : JSONSchemaProps

namespace JSONSchemaProps

/-- The `Type` field of a schema node. -/
def type : JSONSchemaProps → String
  | .mk t _ _ _ _ _ => t

/-- The `Properties` field of a schema node, as an association list. -/
def properties : JSONSchemaProps → List (String × JSONSchemaProps)
  | .mk _ p _ _ _ _ => p

/-- The `Required` field of a schema node. -/
def required : JSONSchemaProps → List String
  | .mk _ _ r _ _ _ => r

/-- The `AdditionalProperties` field: `none` for a nil pointer, otherwise
`(Allows, Schema)`. -/
def additionalProperties : JSONSchemaProps → Option (Bool × Option JSONSchemaProps)
  | .mk _ _ _ a _ _ => a

/-- The `Items` field: `none` for a nil pointer, otherwise
`(Schema, JSONSchemas)`. -/
def items : JSONSchemaProps → Option (Option JSONSchemaProps × List JSONSchemaProps)
  | .mk _ _ _ _ i _ => i

/-- The `XPreserveUnknownFields` field. -/
def xPreserveUnknownFields : JSONSchemaProps → Option Bool
  | .mk _ _ _ _ _ x => x

end JSONSchemaProps

/-- Go map lookup `parent.Properties[segment.Field]` over the association
list embedding of the properties map. -/
def lookupProp : List (String × JSONSchemaProps) → String → Option JSONSchemaProps
  | [], _ => none
  | (k, v) :: rest, name => if k == name then some v else lookupProp rest name

/-- A parsed field-path segment (`fieldpath.Segment` of crossplane-runtime):
either a named field or a numeric array index. -/
inductive Segment : Type where
  | field (name : String)
  | index (i : Nat)
deriving DecidableEq

/-- `pointer.BoolDeref(b, false)`. -/
def boolDeref (b : Option Bool) : Bool := b.getD false

/-- The fixed metadata schema of
`pkg/validation/apiextensions/v1/composition/schema.go`: an open object
with `name`, `namespace`, `uid` strings and `labels`, `annotations`
string maps. -/
def metadataSchema : JSONSchemaProps :=
  .mk Schema.ObjectKnownJSONType
    [ ("name", .mk Schema.StringKnownJSONType [] [] none none none),
      ("namespace", .mk Schema.StringKnownJSONType [] [] none none none),
      ("labels", .mk Schema.ObjectKnownJSONType [] []
        (some (false, some (.mk Schema.StringKnownJSONType [] [] none none none))) none none),
      ("annotations", .mk Schema.ObjectKnownJSONType [] []
        (some (false, some (.mk Schema.StringKnownJSONType [] [] none none none))) none none),
      ("uid", .mk Schema.StringKnownJSONType [] [] none none none) ]
    []
    (some (true, none))
    none
    none

/-- `validateFieldPathSegment` from
`pkg/validation/apiextensions/v1/composition/patches.go`: resolves one
segment against a (non-nil) parent schema, returning the schema for the
segment (possibly nil) and whether the segment is required. The Go
function's `parent == nil` guard is handled by the caller
(`resolveSegments`), which stops as soon as the current node is nil. -/
def validateFieldPathSegment (parent : JSONSchemaProps) :
    Segment → Except String (Option JSONSchemaProps × Bool)
  | .field name =>
    let propType := if parent.type == "" then Schema.ObjectKnownJSONType else parent.type
    if propType ≠ Schema.ObjectKnownJSONType then
      .error ("trying to access field of not an object: " ++ propType)
    else
      match lookupProp parent.properties name with
      | none =>
        if boolDeref parent.xPreserveUnknownFields then
          .ok (none, false)
        else
          match parent.additionalProperties with
          | some (true, s) => .ok (s, false)
          | _ => .error ("unable to find field: " ++ name)
      | some prop => .ok (some prop, parent.required.contains name)
  | .index i =>
    if parent.type ≠ Schema.ArrayKnownJSONType then
      .error ("accessing by index a " ++ parent.type ++ " field")
    else
      match parent.items with
      | none => .error "no items found in array"
      | some (some s, _) => .ok (some s, false)
      | some (none, schemas) =>
        if schemas.length < i then .error "no schemas "
        else .ok (none, false)

/-- The segment loop of `validateFieldPath`: iteratively resolve each
segment, returning the error of a failing segment, the sentinel
`("", false)` as soon as the current node becomes nil, and
`(current.Type, required)` — with `required` the flag produced by the
last segment — once all segments are consumed. -/
def resolveSegments (s : JSONSchemaProps) (required : Bool) :
    List Segment → Except String (String × Bool)
  | [] => .ok (s.type, required)
  | seg :: rest =>
    match validateFieldPathSegment s seg with
    | .error e => .error e
    | .ok (none, _) => .ok ("", false)
    | .ok (some next, req) => resolveSegments next req rest

/-- `validateFieldPath` from
`pkg/validation/apiextensions/v1/composition/patches.go`, embedded over
the parsed segment list (`fieldpath.Parse` lives in crossplane-runtime;
a nonempty path parses to a nonempty segment list, and the empty path —
which Go short-circuits before parsing — is the empty list). A leading
`metadata` field segment is stripped and resolution restarts from the
fixed `metadataSchema`. A nil root schema yields the sentinel. -/
def validateFieldPath (schema : Option JSONSchemaProps) (path : List Segment) :
    Except String (String × Bool) :=
  if path = [] then .ok ("", false)
  else
    let stripped :=
      match path with
      | .field "metadata" :: rest => (some metadataSchema, rest)
      | _ => (schema, path)
    match stripped with
    | (none, _) => .ok ("", false)
    | (some s, segs) => resolveSegments s false segs

/-! ## Patches and transform chains -/

/-- `v1.PatchTypeFromCompositeFieldPath`. -/
def PatchTypeFromCompositeFieldPath : String := "FromCompositeFieldPath"

/-- `v1.PatchTypeToCompositeFieldPath`. -/
def PatchTypeToCompositeFieldPath : String := "ToCompositeFieldPath"

/-- `v1.PatchTypeCombineFromComposite`. -/
def PatchTypeCombineFromComposite : String := "CombineFromComposite"

/-- `v1.PatchTypeCombineToComposite`. -/
def PatchTypeCombineToComposite : String := "CombineToComposite"

/-- `v1.PatchTypePatchSet`. -/
def PatchTypePatchSet : String := "PatchSet"

/-- A patch (`v1.Patch`), restricted to the fields the validation core
reads. The Go `FromFieldPath`/`ToFieldPath` are `*string` field paths
dereferenced through `safeDeref` (nil becomes the empty string); both nil
and the empty string are embedded as the empty segment list, and a
nonempty parseable path as its nonempty parsed segment list. -/
structure Patch where
  type : String
  fromFieldPath : List Segment := []
  toFieldPath : List Segment := []
  patchSetName : Option String := none
  combine : Option Unit := none
deriving DecidableEq

/-- Modelled from the spec: `v1.Patch.Validate` (defined in the API types,
absent from src/) is the generic patch-shape validation — "required
fields present for its declared kind". A field-path patch requires its
source path, a combine patch requires its combine configuration and
destination path, and a patch-set reference requires the set name.
Returns an error message, or `none` when the patch shape is valid. -/
def Patch.validate (p : Patch) : Option String :=
  if p.type == PatchTypeFromCompositeFieldPath || p.type == PatchTypeToCompositeFieldPath then
    if p.fromFieldPath = [] then some "fromFieldPath is required" else none
  else if p.type == PatchTypeCombineFromComposite || p.type == PatchTypeCombineToComposite then
    if p.combine = none then some "combine is required"
    else if p.toFieldPath = [] then some "toFieldPath is required" else none
  else if p.type == PatchTypePatchSet then
    if p.patchSetName = none then some "patchSetName is required" else none
  else none

/-- Modelled from the spec: `v1.TransformOutputTypeAny` (defined in the
API types, absent from src/) is the sentinel output type marking a
transform whose output cannot be statically determined; the internal
validator compares the running type against the literal string "any". -/
def TransformOutputTypeAny : String := "any"

/-- The loop of `validateTransformsIOTypes`: thread the running type
through `transform.ValidateIO` for each transform in order, stopping at
the first transform that rejects its input type. `Transform.ValidateIO`
is defined in the API types, absent from src/, so the transform type and
its `ValidateIO` are taken as parameters. -/
def runTransformsIOLoop {T : Type} (validateIOFn : T → String → Except String String) :
    String → List T → Except String String
  | t, [] => .ok t
  | t, tr :: rest =>
    match validateIOFn tr t with
    | .error e => .error e
    | .ok t2 => runTransformsIOLoop validateIOFn t2 rest

/-- `validateTransformsIOTypes` from
`pkg/validation/apiextensions/v1/composition/patches.go`: run the
transform chain from the source type, then compare the final running
type against the destination type — succeeding when the sentinel "any"
was produced, when the final type is integer and the destination number,
or when the two are equal, and failing with a mismatch error otherwise.
Returns the error message of a failing validation, `none` on success. -/
def validateTransformsIOTypes {T : Type} (validateIOFn : T → String → Except String String)
    (transforms : List T) (fromType toType : String) : Option String :=
  match runTransformsIOLoop validateIOFn fromType transforms with
  | .error e => some e
  | .ok transformedToType =>
    if transformedToType == TransformOutputTypeAny then none
    else if transformedToType == Schema.IntegerKnownJSONType
        && toType == Schema.NumberKnownJSONType then none
    else if transformedToType ≠ toType then
      some ("transformed output type and to field path have different types ("
        ++ transformedToType ++ " != " ++ toType ++ ")")
    else none

/-- `ValidateFromCompositeFieldPathPatch` from
`pkg/validation/apiextensions/v1/composition/patches.go`: resolve the
source path against the source schema and the destination path (which
defaults to the source path when empty) against the destination schema,
fail when the destination is required but the source is not, and
otherwise return the two resolved types. Also used for
`ToCompositeFieldPath` patches with the schemas swapped. -/
def ValidateFromCompositeFieldPathPatch (patch : Patch)
    (fromSchema toSchema : Option JSONSchemaProps) : Except String (String × String) :=
  let fromFieldPath := patch.fromFieldPath
  let toFieldPath := if patch.toFieldPath = [] then fromFieldPath else patch.toFieldPath
  match validateFieldPath fromSchema fromFieldPath with
  | .error e => .error ("fromFieldPath: " ++ e)
  | .ok (fromType, fromRequired) =>
    match validateFieldPath toSchema toFieldPath with
    | .error e => .error ("toFieldPath: " ++ e)
    | .ok (toType, toRequired) =>
      if toRequired && !fromRequired then
        .error "from field path is not required but to field path is"
      else
        .ok (fromType, toType)

/-! ## Composition structure and the logical validation chain, from
`internal/controller/apiextensions/composition/validation/logical.go`. -/

/-- A structured field error (`field.Error`): the rendered field path
locating the offending element and the human-readable detail string. -/
structure FieldError where
  path : String
  detail : String
deriving DecidableEq

/-- Error string `errMixed`. -/
def errMixed : String :=
  "cannot mix named and anonymous resource templates - ensure all resource templates are named"

/-- Error string `errDuplicate`. -/
def errDuplicate : String :=
  "resource template names must be unique within their Composition"

/-- Error string `errFnsRequireNames`. -/
def errFnsRequireNames : String :=
  "cannot use functions with anonymous resource templates - ensure all resource templates are named"

/-- Error string `errNestedPatches`. -/
def errNestedPatches : String := "cannot use patches within patches"

/-- Error string `errFnMissingContainerConfig` from
`composition_validate.go`. -/
def errFnMissingContainerConfig : String :=
  "functions of type: Container must specify container configuration"

/-- `v1.FunctionTypeContainer`. -/
def FunctionTypeContainer : String := "Container"

/-- A Composition Function declaration (`v1.Function`; named
`CompositionFunction` here because `Function` is taken by Mathlib):
its type and its optional container configuration, whose content the
validation core never reads. -/
structure CompositionFunction where
  type : String
  container : Option Unit := none
deriving DecidableEq

/-- `v1.Function.Validate`, after the inline switch of
`RejectFunctionsWithoutRequiredConfig` in `composition_validate.go`:
a function of type Container must carry container configuration, and an
unknown function type is itself an error. -/
def CompositionFunction.validate (fn : CompositionFunction) : Option String :=
  if fn.type == FunctionTypeContainer then
    if fn.container = none then some errFnMissingContainerConfig else none
  else some ("unknown function type " ++ fn.type)

/-- A resource template (`v1.ComposedTemplate`), restricted to the
fields the logical checks read: the optional name and the patches. -/
structure ComposedTemplate where
  name : Option String := none
  patches : List Patch := []
deriving DecidableEq

/-- A named patch set (`v1.PatchSet`). -/
structure PatchSet where
  name : String
  patches : List Patch
deriving DecidableEq

/-- The `spec` of a Composition, restricted to the fields the embedded
validators read. -/
structure CompositionSpec where
  resources : List ComposedTemplate := []
  patchSets : List PatchSet := []
  functions : List CompositionFunction := []
deriving DecidableEq

/-- A Composition (`v1.Composition`): its metadata annotations (`none`
for a nil map) and its spec. -/
structure Composition where
  annotations : Option (List (String × String)) := none
  spec : CompositionSpec
deriving DecidableEq

/-- `RejectMixedTemplates` from `logical.go`: count named templates up
and anonymous templates down; valid only when all templates are named or
all are anonymous. -/
def RejectMixedTemplates (comp : Composition) : List FieldError :=
  let named : Int :=
    comp.spec.resources.foldl (fun n tmpl => if tmpl.name.isSome then n + 1 else n - 1) 0
  let l : Int := comp.spec.resources.length
  if named = l ∨ named = -l then []
  else [⟨"spec.resources", errMixed⟩]

/-- The loop of `RejectDuplicateNames`: scan templates in order with a
seen-name set, skipping anonymous templates and emitting one error per
duplicate occurrence (not the first). -/
def rejectDuplicateNamesLoop (seen : List String) (i : Nat) :
    List ComposedTemplate → List FieldError
  | [] => []
  | tmpl :: rest =>
    match tmpl.name with
    | none => rejectDuplicateNamesLoop seen (i + 1) rest
    | some n =>
      if seen.contains n then
        ⟨"spec.resources[" ++ toString i ++ "]", errDuplicate⟩
          :: rejectDuplicateNamesLoop seen (i + 1) rest
      else rejectDuplicateNamesLoop (n :: seen) (i + 1) rest

/-- `RejectDuplicateNames` from `logical.go`: all template names must be
unique within the Composition. -/
def RejectDuplicateNames (comp : Composition) : List FieldError :=
  rejectDuplicateNamesLoop [] 0 comp.spec.resources

/-- The loop of `RejectAnonymousTemplatesWithFunctions`: one error per
anonymous template. -/
def rejectAnonymousLoop (i : Nat) : List ComposedTemplate → List FieldError
  | [] => []
  | tmpl :: rest =>
    match tmpl.name with
    | none => ⟨"spec.resources[" ++ toString i ++ "]", errFnsRequireNames⟩
        :: rejectAnonymousLoop (i + 1) rest
    | some _ => rejectAnonymousLoop (i + 1) rest

/-- `RejectAnonymousTemplatesWithFunctions` from `logical.go`: when any
Composition Function is declared, every template must be named. -/
def RejectAnonymousTemplatesWithFunctions (comp : Composition) : List FieldError :=
  if comp.spec.functions.length = 0 then []
  else rejectAnonymousLoop 0 comp.spec.resources

/-- The loop of `RejectFunctionsWithoutRequiredConfig`: one error per
function whose `Validate` fails. -/
def rejectFunctionsLoop (i : Nat) : List CompositionFunction → List FieldError
  | [] => []
  | fn :: rest =>
    match fn.validate with
    | some e => ⟨"spec.functions[" ++ toString i ++ "]", e⟩ :: rejectFunctionsLoop (i + 1) rest
    | none => rejectFunctionsLoop (i + 1) rest

/-- `RejectFunctionsWithoutRequiredConfig` from `logical.go`. -/
def RejectFunctionsWithoutRequiredConfig (comp : Composition) : List FieldError :=
  rejectFunctionsLoop 0 comp.spec.functions

/-- The inner loop of `RejectInvalidPatchSets` over the patches of the
patch set at index `i`: a patch of kind PatchSet yields a nesting error,
and a patch failing generic shape validation yields its error; the two
checks are independent, so one patch can yield both. -/
def rejectInvalidPatchSetsPatchLoop (i j : Nat) : List Patch → List FieldError
  | [] => []
  | p :: rest =>
    let path := "spec.patchSets[" ++ toString i ++ "].patches[" ++ toString j ++ "]"
    (if p.type == PatchTypePatchSet then [⟨path, errNestedPatches⟩] else [])
      ++ (match p.validate with
          | some e => [⟨path, e⟩]
          | none => [])
      ++ rejectInvalidPatchSetsPatchLoop i (j + 1) rest

/-- The outer loop of `RejectInvalidPatchSets` over the patch sets. -/
def rejectInvalidPatchSetsLoop (i : Nat) : List PatchSet → List FieldError
  | [] => []
  | s :: rest =>
    rejectInvalidPatchSetsPatchLoop i 0 s.patches ++ rejectInvalidPatchSetsLoop (i + 1) rest

/-- `RejectInvalidPatchSets` from `logical.go`: for every patch inside
every patch set, reject patch-set nesting and failing patch-shape
validation. -/
def RejectInvalidPatchSets (comp : Composition) : List FieldError :=
  rejectInvalidPatchSetsLoop 0 comp.spec.patchSets

/-- `defaultValidationChain` from `logical.go`: the five structural
checks of the logical validation chain, in their declared order. -/
def defaultValidationChain : List (Composition → List FieldError) :=
  [ RejectMixedTemplates,
    RejectDuplicateNames,
    RejectAnonymousTemplatesWithFunctions,
    RejectFunctionsWithoutRequiredConfig,
    RejectInvalidPatchSets ]

/-- Modelled from the spec: `validation.Chain.Validate` (the generic
chain runner lives in crossplane-runtime, absent from src/) runs every
validator of the chain unconditionally and concatenates their
field-error lists into one list. -/
def chainValidate (chain : List (Composition → List FieldError))
    (comp : Composition) : List FieldError :=
  (chain.map (fun v => v comp)).flatten

/-! ## Validation mode, from `composition_validate.go` and the API
constants of the webhook setup file. -/

/-- `v1.CompositionValidationModeLoose`. -/
def CompositionValidationModeLoose : String := "loose"

/-- `v1.CompositionValidationModeStrict`. -/
def CompositionValidationModeStrict : String := "strict"

/-- `v1.DefaultCompositionValidationMode`, which is the loose mode. -/
def DefaultCompositionValidationMode : String := CompositionValidationModeLoose

/-- `v1.CompositionValidationModeAnnotation`, the annotation key holding
the validation mode. -/
def compositionValidationModeKey : String := "crossplane.io/composition-validation-mode"

/-- Go map lookup over the annotations association list. -/
def lookupStringKey : List (String × String) → String → Option String
  | [], _ => none
  | (k, v) :: rest, key => if k == key then some v else lookupStringKey rest key

/-- `getCompositionValidationMode` from `composition_validate.go`: the
default mode when the annotations map is nil or the key is absent, the
annotated mode when it is strict or loose, and an error otherwise. -/
def getCompositionValidationMode (comp : Composition) : Except String String :=
  match comp.annotations with
  | none => .ok DefaultCompositionValidationMode
  | some anns =>
    match lookupStringKey anns compositionValidationModeKey with
    | none => .ok DefaultCompositionValidationMode
    | some mode =>
      if mode == CompositionValidationModeStrict || mode == CompositionValidationModeLoose then
        .ok mode
      else .error ("invalid composition validation mode: " ++ mode)

/-! ## Concrete schemas used by witnesses and counterexamples -/

/-- A plain string schema node. -/
def schemaString : JSONSchemaProps := .mk Schema.StringKnownJSONType [] [] none none none

/-- An object schema whose property `a` is not required, while `a`
itself declares a required property `b` of type string. -/
def nestedRequiredSchema : JSONSchemaProps :=
  .mk Schema.ObjectKnownJSONType
    [("a", .mk Schema.ObjectKnownJSONType [("b", schemaString)] ["b"] none none none)]
    [] none none none

/-- An object schema with open additional properties carrying no schema
(an schemaless wildcard) and no declared properties. -/
def openWildcardSchema : JSONSchemaProps :=
  .mk Schema.ObjectKnownJSONType [] [] (some (true, none)) none none

/-- An array schema declaring two positional item schemas and no single
item schema. -/
def positionalArraySchema : JSONSchemaProps :=
  .mk Schema.ArrayKnownJSONType [] [] none (some (none, [schemaString, schemaString])) none

/-- Helper for stating properties of the resolution loop: the same
traversal as `resolveSegments`, but returning the schema node reached
after consuming the segments (`none` once the node becomes
unresolvable). -/
def resolveToSchema (s : JSONSchemaProps) : List Segment → Except String (Option JSONSchemaProps)
  | [] => .ok (some s)
  | seg :: rest =>
    match validateFieldPathSegment s seg with
    | .error e => .error e
    | .ok (none, _) => .ok none
    | .ok (some next, _) => resolveToSchema next rest

/-! ## Claims -/

/-- C7: the equivalence predicate returns true exactly when the two type
names are equal or the first is "integer" and the second "number"; in
particular integer is equivalent to number, every known type is
equivalent to itself, and "string" is not equivalent to "integer". -/
theorem C7_equivalence :
    (∀ a b : String, Schema.IsEquivalent a b = true ↔
      (a = b ∨ (a = Schema.IntegerKnownJSONType ∧ b = Schema.NumberKnownJSONType)))
    ∧ Schema.IsEquivalent Schema.IntegerKnownJSONType Schema.NumberKnownJSONType = true
    ∧ (∀ x : String, Schema.IsKnownJSONType x = true → Schema.IsEquivalent x x = true)
    ∧ Schema.IsEquivalent Schema.StringKnownJSONType Schema.IntegerKnownJSONType = false := by
  refine ⟨?_, by decide, ?_, by decide⟩
  · intro a b
    simp [Schema.IsEquivalent]
  · intro x _
    simp [Schema.IsEquivalent]

/-- Witness for C7 at a concrete known type: "boolean" is equivalent to
itself. -/
theorem C7_equivalence_witness :
    Schema.IsEquivalent Schema.BooleanKnownJSONType Schema.BooleanKnownJSONType = true :=
  C7_equivalence.2.2.1 Schema.BooleanKnownJSONType (by decide)

/-- C9: reading the validation mode returns the default loose mode when
the annotations map is nil or the annotation is absent, returns the
annotated mode when it is strict or loose, and returns an error for any
other annotation value. -/
theorem C9_validation_mode :
    (∀ spec : CompositionSpec,
      getCompositionValidationMode ⟨none, spec⟩ = .ok CompositionValidationModeLoose)
    ∧ (∀ (anns : List (String × String)) (spec : CompositionSpec),
        lookupStringKey anns compositionValidationModeKey = none →
        getCompositionValidationMode ⟨some anns, spec⟩ = .ok CompositionValidationModeLoose)
    ∧ (∀ (anns : List (String × String)) (spec : CompositionSpec) (m : String),
        lookupStringKey anns compositionValidationModeKey = some m →
        (m = CompositionValidationModeStrict ∨ m = CompositionValidationModeLoose) →
        getCompositionValidationMode ⟨some anns, spec⟩ = .ok m)
    ∧ (∀ (anns : List (String × String)) (spec : CompositionSpec) (m : String),
        lookupStringKey anns compositionValidationModeKey = some m →
        m ≠ CompositionValidationModeStrict → m ≠ CompositionValidationModeLoose →
        getCompositionValidationMode ⟨some anns, spec⟩ =
          .error ("invalid composition validation mode: " ++ m)) := by
  refine ⟨fun _ => rfl, ?_, ?_, ?_⟩
  · intro anns spec h
    simp [getCompositionValidationMode, h, DefaultCompositionValidationMode]
  · intro anns spec m h hm
    rcases hm with hm | hm <;>
      simp [getCompositionValidationMode, h, hm]
  · intro anns spec m h hs hl
    simp [getCompositionValidationMode, h, hs, hl]

/-- Witness for C9: a Composition annotated with the strict mode resolves
to the strict mode. -/
theorem C9_validation_mode_witness :
    getCompositionValidationMode
      ⟨some [("crossplane.io/composition-validation-mode", "strict")], {}⟩ =
      .ok CompositionValidationModeStrict :=
  C9_validation_mode.2.2.1
    [("crossplane.io/composition-validation-mode", "strict")] {} "strict" rfl (Or.inl rfl)

/-- The duplicate-name loop emits nothing when every remaining template
is anonymous, whatever names were seen so far. -/
theorem rejectDuplicateNamesLoop_all_anonymous (ts : List ComposedTemplate)
    (h : ∀ t ∈ ts, t.name = none) (seen : List String) (i : Nat) :
    rejectDuplicateNamesLoop seen i ts = [] := by
  induction ts generalizing seen i with
  | nil => rfl
  | cons t rest ih =>
    have ht : t.name = none := h t (List.mem_cons_self t rest)
    simp only [rejectDuplicateNamesLoop, ht]
    exact ih (fun x hx => h x (List.mem_cons_of_mem t hx)) seen (i + 1)

/-- C10: the duplicate-name check returns no errors for a Composition in
which every resource template is anonymous — anonymous templates are
skipped and never counted as duplicates of one another. -/
theorem C10_anonymous_skipped (comp : Composition)
    (h : ∀ t ∈ comp.spec.resources, t.name = none) :
    RejectDuplicateNames comp = [] :=
  rejectDuplicateNamesLoop_all_anonymous comp.spec.resources h [] 0

/-- Witness for C10: three anonymous templates yield no duplicate
errors. -/
theorem C10_anonymous_skipped_witness :
    RejectDuplicateNames ⟨none, ⟨[{}, {}, {}], [], []⟩⟩ = [] :=
  C10_anonymous_skipped ⟨none, ⟨[{}, {}, {}], [], []⟩⟩ (by decide)

/-- A Composition whose two patch sets share the name "ps", each with no
patches. -/
def dupPatchSetComp : Composition := ⟨none, ⟨[], [⟨"ps", []⟩, ⟨"ps", []⟩], []⟩⟩

/-- C3 failing input: `RejectInvalidPatchSets` returns no error on a
Composition with two patch sets sharing the same name — the function
never compares patch-set names, despite its own doc comment promising
that patch-set names are validated to be unique. -/
theorem C3_duplicate_patchset_names_pass :
    RejectInvalidPatchSets dupPatchSetComp = []
    ∧ dupPatchSetComp.spec.patchSets.map PatchSet.name = ["ps", "ps"] :=
  ⟨rfl, rfl⟩

/-- C5: as soon as a segment resolves to no schema node at all (without
error), the resolution loop stops and returns the unknown sentinel type
(the empty string) with required false and no error, whatever segments
remain and whatever required flag had been accumulated. -/
theorem C5_nil_sentinel (s : JSONSchemaProps) (seg : Segment) (rest : List Segment)
    (b r : Bool) (h : validateFieldPathSegment s seg = .ok (none, r)) :
    resolveSegments s b (seg :: rest) = .ok ("", false) := by
  simp [resolveSegments, h]

/-- Witness for C5: an unknown field under an schemaless open
additionalProperties wildcard resolves to no node, and the remaining
segments are abandoned in favour of the sentinel. -/
theorem C5_nil_sentinel_witness :
    resolveSegments openWildcardSchema false
      [Segment.field "x", Segment.field "y", Segment.index 3] = .ok ("", false) :=
  C5_nil_sentinel openWildcardSchema (Segment.field "x")
    [Segment.field "y", Segment.index 3] false false rfl

/-- C8 failing input: on an array schema declaring two positional item
schemas, index 0 and 1 resolve without error, index 3 is rejected as out
of range, but index 2 — also out of range, the valid indices being 0 and
1 — is accepted without error and yields the unresolved, not-required
result: the bounds check compares with strict less-than
(`len(schemas) < index`) instead of `len(schemas) <= index`. -/
theorem C8_index_off_by_one :
    validateFieldPathSegment positionalArraySchema (Segment.index 0) = .ok (none, false)
    ∧ validateFieldPathSegment positionalArraySchema (Segment.index 1) = .ok (none, false)
    ∧ validateFieldPathSegment positionalArraySchema (Segment.index 2) = .ok (none, false)
    ∧ validateFieldPathSegment positionalArraySchema (Segment.index 3) = .error "no schemas " :=
  ⟨rfl, rfl, rfl, rfl⟩

/-- C4: running the logical validation chain concatenates the error
lists of all five structural checks, in order; an earlier check's
failure never suppresses a later check's errors (the result always
contains every check's full error list). -/
theorem C4_chain_concatenates (comp : Composition) :
    chainValidate defaultValidationChain comp =
      RejectMixedTemplates comp ++ RejectDuplicateNames comp
        ++ RejectAnonymousTemplatesWithFunctions comp
        ++ RejectFunctionsWithoutRequiredConfig comp
        ++ RejectInvalidPatchSets comp := by
  simp [chainValidate, defaultValidationChain, List.append_assoc]

/-- C1 counterexample: resolving `a.b` against a schema in which the
ancestor field `a` is not listed in its parent's required set still
returns required true, because `b` is required inside `a` — refuting the
claim that required is true only if every ancestor segment along the
path is listed in its parent's required set. -/
theorem C1_counterexample :
    validateFieldPath (some nestedRequiredSchema) [Segment.field "a", Segment.field "b"]
      = .ok (Schema.StringKnownJSONType, true)
    ∧ nestedRequiredSchema.required.contains "a" = false :=
  ⟨rfl, rfl⟩

/-- C1 (amended): the required flag returned by path resolution is
computed from the final segment alone — a path ending in a field found
in the properties of the node reached by the earlier segments resolves
with required equal to that field's membership in its immediate parent's
required list, whatever required flag (`b`) the earlier segments
produced and however the ancestors are declared. -/
theorem C1_required_final_segment
    (segs : List Segment) (p prop : JSONSchemaProps) (name : String)
    (hprop : lookupProp p.properties name = some prop)
    (htype : p.type = "" ∨ p.type = Schema.ObjectKnownJSONType) :
    ∀ (s : JSONSchemaProps) (b : Bool), resolveToSchema s segs = .ok (some p) →
    resolveSegments s b (segs ++ [Segment.field name])
      = .ok (prop.type, p.required.contains name) := by
  induction segs with
  | nil =>
    intro s b hreach
    simp only [resolveToSchema, Except.ok.injEq, Option.some.injEq] at hreach
    subst hreach
    have hseg : validateFieldPathSegment s (Segment.field name)
        = .ok (some prop, s.required.contains name) := by
      rcases htype with h | h <;>
        simp [validateFieldPathSegment, h, hprop, Schema.ObjectKnownJSONType]
    simp [resolveSegments, hseg]
  | cons seg rest ih =>
    intro s b hreach
    rw [List.cons_append]
    cases hstep : validateFieldPathSegment s seg with
    | error e => simp [resolveToSchema, hstep] at hreach
    | ok res =>
      obtain ⟨cur, r⟩ := res
      cases cur with
      | none => simp [resolveToSchema, hstep] at hreach
      | some next =>
        have hreach2 : resolveToSchema next rest = .ok (some p) := by
          simpa [resolveToSchema, hstep] using hreach
        simp only [resolveSegments, hstep]
        exact ih next r hreach2

/-- Witness for the amended C1: resolving `a.b` where `b` is required
inside the non-required `a` yields required true (determined by the
final segment alone). -/
theorem C1_required_final_segment_witness :
    resolveSegments nestedRequiredSchema false [Segment.field "a", Segment.field "b"]
      = .ok (Schema.StringKnownJSONType, true) :=
  C1_required_final_segment [Segment.field "a"]
    (.mk Schema.ObjectKnownJSONType [("b", schemaString)] ["b"] none none none)
    schemaString "b" rfl (Or.inr rfl) nestedRequiredSchema false rfl

/-- C2: when the transform chain computes a final running type that is
not the "any" sentinel, the terminal comparison succeeds exactly when
the final type is "integer" and the destination type "number", or the
two types are equal; otherwise validation fails with a mismatch error. -/
theorem C2_terminal_comparison {T : Type}
    (validateIOFn : T → String → Except String String)
    (transforms : List T) (fromType toType finalType : String)
    (hrun : runTransformsIOLoop validateIOFn fromType transforms = .ok finalType)
    (hany : finalType ≠ TransformOutputTypeAny) :
    validateTransformsIOTypes validateIOFn transforms fromType toType = none ↔
      ((finalType = Schema.IntegerKnownJSONType ∧ toType = Schema.NumberKnownJSONType)
        ∨ finalType = toType) := by
  simp only [validateTransformsIOTypes, hrun, beq_iff_eq, Bool.and_eq_true, ne_eq]
  split_ifs with h1 h2 h3
  · exact absurd h1 hany
  · exact iff_of_true rfl (Or.inl h2)
  · exact iff_of_true rfl (Or.inr h3)
  · refine iff_of_false (by simp) ?_
    rintro (⟨hi, hn⟩ | he)
    · exact h2 ⟨hi, hn⟩
    · exact h3 he

/-- Witness for C2: with no transforms, an integer source against a
number destination passes the terminal comparison. -/
theorem C2_terminal_comparison_witness :
    validateTransformsIOTypes (fun (_ : Unit) t => Except.ok t) []
      Schema.IntegerKnownJSONType Schema.NumberKnownJSONType = none :=
  (C2_terminal_comparison (fun (_ : Unit) t => Except.ok t) []
      Schema.IntegerKnownJSONType Schema.NumberKnownJSONType
      Schema.IntegerKnownJSONType rfl (by decide)).mpr
    (Or.inl ⟨rfl, rfl⟩)

/-- C6: for a field-path patch whose source and (defaulted) destination
paths both resolve without error, the patch validator fails exactly when
the destination is required and the source is not; otherwise it succeeds
with the two resolved types. -/
theorem C6_required_mismatch (patch : Patch) (fromSchema toSchema : Option JSONSchemaProps)
    (fromType toType : String) (fromRequired toRequired : Bool)
    (hfrom : validateFieldPath fromSchema patch.fromFieldPath = .ok (fromType, fromRequired))
    (hto : validateFieldPath toSchema
        (if patch.toFieldPath = [] then patch.fromFieldPath else patch.toFieldPath)
        = .ok (toType, toRequired)) :
    ValidateFromCompositeFieldPathPatch patch fromSchema toSchema =
      if toRequired && !fromRequired then
        .error "from field path is not required but to field path is"
      else .ok (fromType, toType) := by
  simp only [ValidateFromCompositeFieldPathPatch, hfrom, hto]

/-- Witness for C6: a patch from a non-required source field `a` to a
required destination field `b` is rejected. -/
theorem C6_required_mismatch_witness :
    ValidateFromCompositeFieldPathPatch
      ⟨PatchTypeFromCompositeFieldPath, [Segment.field "a"], [Segment.field "b"], none, none⟩
      (some (.mk Schema.ObjectKnownJSONType [("a", schemaString)] [] none none none))
      (some (.mk Schema.ObjectKnownJSONType [("b", schemaString)] ["b"] none none none))
      = .error "from field path is not required but to field path is" := by
  have h := C6_required_mismatch
    ⟨PatchTypeFromCompositeFieldPath, [Segment.field "a"], [Segment.field "b"], none, none⟩
    (some (.mk Schema.ObjectKnownJSONType [("a", schemaString)] [] none none none))
    (some (.mk Schema.ObjectKnownJSONType [("b", schemaString)] ["b"] none none none))
    Schema.StringKnownJSONType Schema.StringKnownJSONType false true rfl rfl
  simpa using h

end Crossplane
